import Mathlib

/-!
Verification of the luna-oled render pipeline.

Shallow embedding of the SSD1306 page encoder, the status-to-scene
selection in `main`, the status fetchers, the cleanup routine and the
main loop of `src/display-status.py` (the `SSD1306` class there is the
same as the one in `src/test.py`).
-/

namespace LunaOled

/-- A logical 1-bit bitmap: declared width and height, and a pixel read
function (PIL `image.getpixel`). The encoder only reads in-bounds pixels
(`x < width` from the loop bound, `y < height` from the explicit guard). -/
structure Bitmap where
  width : Nat
  height : Nat
  pixel : Nat → Nat → Bool

/-- Body of the innermost loop of `SSD1306.display_image`
(src/display-status.py lines 86-92): for the current `bit`, row
`y = page * 8 + bit`; if `y < height` and the pixel is set, set bit
`bit` of the accumulator byte. -/
def pageByteStep (img : Bitmap) (page x : Nat) (byte : Nat) (bit : Nat) : Nat :=
  let y := page * 8 + bit
  if y < img.height then
    if img.pixel x y then byte ||| (1 <<< bit) else byte
  else byte

/-- The byte sent for `(page, x)` by `SSD1306.display_image`: fold of
`pageByteStep` over `bit in range(8)` starting from `byte = 0`. -/
def pageByte (img : Bitmap) (page x : Nat) : Nat :=
  (List.range 8).foldl (pageByteStep img page x) 0

/-- The page/column byte stream produced by `SSD1306.display_image`
(src/display-status.py lines 75-93): one list of `width` bytes per page,
`pages = height // 8` pages (addressing commands are not part of the
pixel data and are omitted). The size/mode conversion branch does not
apply because the model's bitmap carries the driver's own dimensions. -/
def display_image (img : Bitmap) : List (List Nat) :=
  (List.range (img.height / 8)).map (fun page =>
    (List.range img.width).map (fun x => pageByte img page x))

/-- Characterisation of the fold prefix: after scanning bits `0..n-1`,
bit `b` of the accumulated byte is set iff `b < n`, row `page*8+b` is in
range, and that pixel is set. -/
theorem pageByte_aux_testBit (img : Bitmap) (page x n b : Nat) :
    Nat.testBit ((List.range n).foldl (pageByteStep img page x) 0) b =
      (decide (b < n) && decide (page * 8 + b < img.height) && img.pixel x (page * 8 + b)) := by
  induction n with
  | zero => simp
  | succ n ih =>
    rw [List.range_succ, List.foldl_append]
    simp only [List.foldl_cons, List.foldl_nil]
    set v := (List.range n).foldl (pageByteStep img page x) 0 with hv
    unfold pageByteStep
    by_cases hy : page * 8 + n < img.height
    · rw [if_pos hy]
      by_cases hp : img.pixel x (page * 8 + n) = true
      · rw [if_pos hp]
        rw [Nat.testBit_or, ih]
        have h1 : (1 <<< n) = 2 ^ n := by
          rw [Nat.shiftLeft_eq, one_mul]
        rw [h1, Nat.testBit_two_pow]
        by_cases hbn : b = n
        · subst hbn
          simp [hy, hp]
        · have hnb : ¬ (n = b) := fun h => hbn h.symm
          simp only [decide_eq_false hnb, Bool.or_false]
          by_cases hb : b < n
          · have hb1 : b < n + 1 := by omega
            simp [hb, hb1]
          · have hb1 : ¬ b < n + 1 := by omega
            simp [hb, hb1]
      · rw [if_neg hp]
        rw [ih]
        by_cases hbn : b = n
        · subst hbn
          simp [hp]
        · by_cases hb : b < n
          · have hb1 : b < n + 1 := by omega
            simp [hb, hb1]
          · have hb1 : ¬ b < n + 1 := by omega
            simp [hb, hb1]
    · rw [if_neg hy]
      rw [ih]
      by_cases hbn : b = n
      · subst hbn
        simp [hy]
      · by_cases hb : b < n
        · have hb1 : b < n + 1 := by omega
          simp [hb, hb1]
        · have hb1 : ¬ b < n + 1 := by omega
          simp [hb, hb1]

/-- Bit `b` of the byte for `(page, x)` is set iff `b < 8`, the row
`page*8 + b` is within the bitmap, and that pixel is set. -/
theorem pageByte_testBit (img : Bitmap) (page x b : Nat) :
    Nat.testBit (pageByte img page x) b =
      (decide (b < 8) && decide (page * 8 + b < img.height) && img.pixel x (page * 8 + b)) :=
  pageByte_aux_testBit img page x 8 b

/-- Indexing a mapped range: `((range n).map f).getD i d = f i` for `i < n`. -/
theorem getD_range_map {α : Type} (f : Nat → α) (n i : Nat) (d : α) (h : i < n) :
    ((List.range n).map f).getD i d = f i := by
  have hlen : i < ((List.range n).map f).length := by simpa using h
  rw [List.getD_eq_getElem _ _ hlen]
  simp

/-- C1: for a bitmap whose height is a multiple of 8, `display_image`
produces exactly `height / 8` pages, each of exactly `width` bytes, and
bit `b` of the byte for page `p`, column `x` equals `pixel x (8*p + b)`;
bit 0 (least significant) is the topmost row of the page. -/
theorem display_image_encoding (img : Bitmap) (h8 : img.height % 8 = 0)
    (p x b : Nat) (hp : p < img.height / 8) (hx : x < img.width) (hb : b < 8) :
    (display_image img).length = img.height / 8 ∧
    ((display_image img).getD p []).length = img.width ∧
    Nat.testBit (((display_image img).getD p []).getD x 0) b = img.pixel x (8 * p + b) := by
  refine ⟨by simp [display_image], ?_, ?_⟩
  · rw [display_image, getD_range_map _ _ _ _ hp]
    simp
  · rw [display_image, getD_range_map _ _ _ _ hp, getD_range_map _ _ _ _ hx,
      pageByte_testBit]
    have hyH : p * 8 + b < img.height := by omega
    have hcomm : p * 8 + b = 8 * p + b := by ring
    rw [hcomm] at hyH ⊢
    simp [hb, hyH]

/-- Checkerboard-like 16x16 bitmap used as a concrete encoder input. -/
def chBmp : Bitmap := ⟨16, 16, fun x y => (x + y) % 3 == 0⟩

/-- Witness for C1 at page 1, column 3, bit 5 of a concrete 16x16 bitmap. -/
theorem display_image_encoding_witness :
    chBmp.height % 8 = 0 ∧ 1 < chBmp.height / 8 ∧ 3 < chBmp.width ∧ 5 < 8 ∧
    ((display_image chBmp).length = chBmp.height / 8 ∧
     ((display_image chBmp).getD 1 []).length = chBmp.width ∧
     Nat.testBit (((display_image chBmp).getD 1 []).getD 3 0) 5 = chBmp.pixel 3 (8 * 1 + 5)) :=
  ⟨by decide, by decide, by decide, by decide,
    display_image_encoding chBmp (by decide) 1 3 5 (by decide) (by decide) (by decide)⟩

/-- Reconstruction of a pixel from the encoder's pages, exactly as the
round-trip claim describes it: bit `y % 8` of the byte at page `y / 8`,
column `x`. -/
def decodePixel (pages : List (List Nat)) (x y : Nat) : Bool :=
  Nat.testBit ((pages.getD (y / 8) []).getD x 0) (y % 8)

/-- C3: encode followed by decode is the identity on every in-range pixel
of a bitmap whose height is a multiple of 8. -/
theorem display_image_roundtrip (img : Bitmap) (h8 : img.height % 8 = 0)
    (x y : Nat) (hx : x < img.width) (hy : y < img.height) :
    decodePixel (display_image img) x y = img.pixel x y := by
  have hp : y / 8 < img.height / 8 := by omega
  rw [decodePixel, display_image, getD_range_map _ _ _ _ hp, getD_range_map _ _ _ _ hx,
    pageByte_testBit]
  have h1 : y % 8 < 8 := by omega
  have h2 : y / 8 * 8 + y % 8 = y := by omega
  rw [h2]
  simp [h1, hy]

/-- All-ones 8x8 bitmap used as a concrete round-trip input. -/
def onesBmp : Bitmap := ⟨8, 8, fun _ _ => true⟩

/-- The status record: the three global booleans of display-status.py
(`SERVICE_RUNNING`, `GENERATING`, `CONNECTED`), under the spec's field
names (`CONNECTED` is the spec's `peer_connected`). -/
structure Status where
  service_up : Bool
  generating : Bool
  peer_connected : Bool

/-- The scene kinds drawn by the main loop of display-status.py. -/
inductive Scene where
  | Offline
  | ServicesReady
  | Connected
  | Thinking
deriving DecidableEq

/-- Scene selection and sleep duration, exactly the if/elif chain of
`main` (src/display-status.py lines 257-268). Sleeps in seconds as exact
rationals: 2, 2, 0.02 = 1/50, 0.5 = 1/2. -/
def selectScene (st : Status) : Scene × ℚ :=
  if !st.service_up then (Scene.Offline, 2)
  else if st.peer_connected then (Scene.Connected, 2)
  else if st.generating then (Scene.Thinking, 1/50)
  else (Scene.ServicesReady, 1/2)

/-- Modelled from the spec: the priority table of section 4.3, one row
per priority, each row a guard over the status plus the scene and sleep. -/
def priorityTable : List ((Status → Bool) × Scene × ℚ) :=
  [(fun st => !st.service_up, Scene.Offline, 2),
   (fun st => st.service_up && st.peer_connected, Scene.Connected, 2),
   (fun st => st.service_up && !st.peer_connected && st.generating, Scene.Thinking, 1/50),
   (fun st => st.service_up && !st.peer_connected && !st.generating, Scene.ServicesReady, 1/2)]

/-- Modelled from the spec: evaluate a priority table top to bottom,
first row whose guard holds wins. -/
def firstMatch : List ((Status → Bool) × Scene × ℚ) → Status → Option (Scene × ℚ)
  | [], _ => none
  | row :: rows, st => if row.1 st then some row.2 else firstMatch rows st

/-- C2: for every status, the scene and sleep chosen by the code equal
the first-match evaluation of the priority table, and with all three
flags true the scene is Connected with a 2 s sleep, never Thinking. -/
theorem selectScene_follows_priority_table (st : Status) :
    firstMatch priorityTable st = some (selectScene st) ∧
    selectScene { service_up := true, generating := true, peer_connected := true } =
      (Scene.Connected, 2) := by
  obtain ⟨a, g, c⟩ := st
  exact ⟨by cases a <;> cases g <;> cases c <;> rfl, rfl⟩

/-- Body of a 200-OK response of the health endpoint: the value of its
`generation_status` field, when present. -/
structure LlmPayload where
  generation_status : Option String

/-- Body of a response of the luna-active endpoint: the value of its
`active` field (missing field defaults to false via `data.get`). -/
structure LunaPayload where
  active : Bool

/-- Outcome of an HTTP GET: a raised request exception (timeout,
connection failure, or - in requests >= 2.27 - malformed JSON, whose
JSONDecodeError is also a RequestException), or a response with a status
code and an optionally parsed body (none = body is malformed JSON). -/
inductive Fetch (α : Type) where
  | failed
  | ok (statusCode : Nat) (body : Option α)

/-- Models `get_llm_status` (src/display-status.py lines 212-225),
returning the pair (SERVICE_RUNNING, GENERATING): on a request
exception or a non-200 status both are false; on a 200 response with a
malformed body the JSON error is caught, leaving both false; otherwise
SERVICE_RUNNING is true and GENERATING compares `generation_status`
against the string "generating". -/
def get_llm_status : Fetch LlmPayload → Bool × Bool
  | .failed => (false, false)
  | .ok code body =>
    if code = 200 then
      match body with
      | none => (false, false)
      | some d => (true, d.generation_status == some "generating")
    else (false, false)

/-- Models `check_luna_active` (src/display-status.py lines 227-235):
`raise_for_status` raises on a 4xx/5xx code, and that exception, a
request exception, or a malformed body all leave CONNECTED false;
otherwise CONNECTED is the `active` field. -/
def check_luna_active : Fetch LunaPayload → Bool
  | .failed => false
  | .ok code body =>
    if 400 ≤ code then false
    else
      match body with
      | none => false
      | some d => d.active

/-- The status record assembled by one poll iteration of `main`. -/
def statusOf (llm : Fetch LlmPayload) (luna : Fetch LunaPayload) : Status :=
  { service_up := (get_llm_status llm).1
    generating := (get_llm_status llm).2
    peer_connected := check_luna_active luna }

/-- C5: a failed fetch, and likewise a 200 response with a malformed
body, yields exactly the scene and sleep of an explicit status with
`service_up = false` (namely Offline with a 2 s sleep), for every luna
outcome and every explicit setting of the other two flags; the fetchers
are total, so no failure escapes as a crash. -/
theorem fetch_failure_degrades (luna : Fetch LunaPayload) (g p : Bool) :
    selectScene (statusOf .failed luna) =
      selectScene { service_up := false, generating := g, peer_connected := p } ∧
    selectScene (statusOf .failed luna) = (Scene.Offline, 2) ∧
    selectScene (statusOf (.ok 200 none) luna) = (Scene.Offline, 2) := by
  have h1 : selectScene (statusOf .failed luna) = (Scene.Offline, 2) := by
    simp [selectScene, statusOf, get_llm_status]
  have h2 : selectScene { service_up := false, generating := g, peer_connected := p } =
      (Scene.Offline, 2) := by
    simp [selectScene]
  have h3 : selectScene (statusOf (.ok 200 none) luna) = (Scene.Offline, 2) := by
    simp [selectScene, statusOf, get_llm_status]
  exact ⟨h1.trans h2.symm, h1, h3⟩

/-- The pupil offset table of `draw_services_ready_frame`
(src/display-status.py line 136). -/
def pupil_positions : List Int := [-4, 0, 4, 0]

/-- The pupil horizontal offset drawn at a given frame index
(src/display-status.py line 137): the table indexed by
`frame_index % len(pupil_positions)`. -/
def pupilOffset (frame_index : Nat) : Int :=
  pupil_positions.getD (frame_index % pupil_positions.length) 0

/-- C7 counterexample: the 4 consecutive ticks starting at frame index 1
visit the offsets [0, 4, 0, -4], not [-4, 0, 4, 0] in that order, so the
offsets over an arbitrary window of 4 consecutive ticks are not always
[-4, 0, 4, 0]. -/
theorem pupilOffset_window_counterexample :
    (List.range 4).map (fun j => pupilOffset (1 + j)) = [0, 4, 0, -4] ∧
    (List.range 4).map (fun j => pupilOffset (1 + j)) ≠ [-4, 0, 4, 0] := by decide

/-- C7 amended: the offset is the fixed sequence [-4, 0, 4, 0] indexed by
`frame_index mod 4`, hence 4-periodic, and every window of 4 consecutive
ticks starting at a frame index divisible by 4 visits exactly
[-4, 0, 4, 0] in that order. -/
theorem pupilOffset_cycle (n : Nat) :
    pupilOffset (n + 4) = pupilOffset n ∧
    (List.range 4).map (fun j => pupilOffset (4 * n + j)) = [-4, 0, 4, 0] := by
  have hlen : pupil_positions.length = 4 := rfl
  constructor
  · simp only [pupilOffset, hlen, Nat.add_mod_right]
  · have e : List.range 4 = [0, 1, 2, 3] := rfl
    rw [e]
    simp only [List.map_cons, List.map_nil]
    have h0 : (4 * n + 0) % 4 = 0 := by omega
    have h1 : (4 * n + 1) % 4 = 1 := by omega
    have h2 : (4 * n + 2) % 4 = 2 := by omega
    have h3 : (4 * n + 3) % 4 = 3 := by omega
    simp only [pupilOffset, hlen, h0, h1, h2, h3]
    rfl

/-- The Thinking-scene angle as computed in `draw_running_llm_frame`
(src/display-status.py line 164): `angle = frame_index * 15`, with no
wrap-around. -/
def angleAt (frame_index : Nat) : Nat := frame_index * 15

/-- C8 counterexample: after 24 ticks from frame 0 the angle is 360, not
0, and the step from frame 23 to frame 24 does not follow the rule
`angle = (angle + 15) mod 360`. -/
theorem angleAt_counterexample :
    angleAt 24 = 360 ∧ angleAt 24 ≠ 0 ∧ angleAt 24 ≠ (angleAt 23 + 15) % 360 := by decide

/-- C8 amended: the angle grows by exactly 360 over any 24 ticks, so the
angle modulo 360 - which alone drives the sinusoidal eye-line geometry,
sine having period 360 degrees - returns to its previous value: the
geometry repeats with period 24 even though the angle itself never
returns to 0. -/
theorem angleAt_period (t : Nat) :
    angleAt (t + 24) = angleAt t + 360 ∧ angleAt (t + 24) % 360 = angleAt t % 360 := by
  unfold angleAt
  omega

/-- Horizontal text origin of `draw_text_centered`
(src/display-status.py line 112): Python floor division
`(oled_width - text_width) // 2`, which for the positive divisor 2
coincides with Euclidean division. -/
def text_x (oled_width text_width : Int) : Int := (oled_width - text_width) / 2

/-- C9 counterexample: for a text 130 pixels wide on the 128-pixel
display the origin is -1, not the claimed clamped value 0. -/
theorem text_x_counterexample :
    text_x 128 130 = -1 ∧ text_x 128 130 ≠ 0 ∧ ¬ 0 ≤ text_x 128 130 := by decide

/-- C9 amended: the origin is the unclamped floor of `(W - tw) / 2`:
for `tw ≤ W` it is the claimed centered origin (and nonnegative), but
for `tw > W` it is negative - the code never clamps to 0. -/
theorem text_x_unclamped (tw : Int) (h0 : 0 ≤ tw) :
    (tw ≤ 128 →
      0 ≤ text_x 128 tw ∧ 2 * text_x 128 tw ≤ 128 - tw ∧ 128 - tw < 2 * text_x 128 tw + 2) ∧
    (128 < tw → text_x 128 tw < 0) := by
  unfold text_x
  constructor <;> intro h <;> omega

/-- Witness for C9's amended theorem at text widths 20 and 300. -/
theorem text_x_unclamped_witness :
    ((0 : Int) ≤ 20 ∧
      ((20 : Int) ≤ 128 →
        0 ≤ text_x 128 20 ∧ 2 * text_x 128 20 ≤ 128 - 20 ∧ 128 - 20 < 2 * text_x 128 20 + 2) ∧
      ((128 : Int) < 20 → text_x 128 20 < 0)) ∧
    ((0 : Int) ≤ 300 ∧ ((128 : Int) < 300 → text_x 128 300 < 0)) :=
  ⟨⟨by decide, text_x_unclamped 20 (by decide)⟩,
   ⟨by decide, (text_x_unclamped 300 (by decide)).2⟩⟩

/-- State of the display driver and the global `oled` binding:
whether `oled` is set, whether the I2C bus handle is open, and how many
bus releases have been executed. -/
structure DriverState where
  oledPresent : Bool
  busOpen : Bool
  releaseCount : Nat
deriving DecidableEq

/-- Models `SSD1306.clear`: a sequence of bus writes, each of which
raises when the bus handle is closed; on an open bus it succeeds and
leaves the state unchanged. -/
def busClear (s : DriverState) : Except Unit DriverState :=
  if s.busOpen then .ok s else .error ()

/-- Models `SSD1306.close` (src/display-status.py lines 95-96):
`self.bus.close()`, one release of the bus handle. -/
def busClose (s : DriverState) : DriverState :=
  { s with busOpen := false, releaseCount := s.releaseCount + 1 }

/-- Models `cleanup` (src/display-status.py lines 199-207): if the
global `oled` is set, try `oled.clear()` then `oled.close()`, with any
exception caught and only printed; then `sys.exit(0)`. Returns the
resulting state and the exit status passed to `sys.exit`. When the bus
is already closed, `clear` raises on its first write, the exception is
swallowed, and `close` is never reached. -/
def cleanup (s : DriverState) : DriverState × Nat :=
  if s.oledPresent then
    match busClear s with
    | .ok s1 => (busClose s1, 0)
    | .error _ => (s, 0)
  else (s, 0)

/-- C6: cleanup is idempotent: from any state, a second cleanup returns
normally with the same exit status 0, leaves the state unchanged, and in
particular executes no second release of the bus handle and does not
re-open the closed handle. -/
theorem cleanup_idempotent (s : DriverState) :
    cleanup (cleanup s).1 = ((cleanup s).1, 0) ∧
    (cleanup (cleanup s).1).1.releaseCount = (cleanup s).1.releaseCount ∧
    (cleanup (cleanup s).1).1.busOpen = (cleanup s).1.busOpen := by
  obtain ⟨op, bo, rc⟩ := s
  cases op <;> cases bo <;> simp [cleanup, busClear, busClose]

/-- Witness for C3 at pixel (2, 5) of a concrete all-ones bitmap. -/
theorem display_image_roundtrip_witness :
    onesBmp.height % 8 = 0 ∧ 2 < onesBmp.width ∧ 5 < onesBmp.height ∧
    decodePixel (display_image onesBmp) 2 5 = onesBmp.pixel 2 5 :=
  ⟨by decide, by decide, by decide,
    display_image_roundtrip onesBmp (by decide) 2 5 (by decide) (by decide)⟩

/-- Input of one iteration of the poll loop: the two fetch outcomes and
whether the bus writes of `oled.display_image` all succeed. -/
structure TickInput where
  llm : Fetch LlmPayload
  luna : Fetch LunaPayload
  renderOk : Bool

/-- Models the `while True` loop of `main` (src/display-status.py lines
250-271) over a finite window of tick inputs: each iteration polls,
selects and draws a scene, then renders it; a failing bus write in
`display_image` raises, and since no handler sits inside the loop the
exception leaves the loop at once. Returns the scenes whose render was
attempted and whether the loop ended by such an exception (false means
the modelled window was exhausted with the loop still running). -/
def runLoop : List TickInput → List Scene × Bool
  | [] => ([], false)
  | t :: rest =>
    let sc := (selectScene (statusOf t.llm t.luna)).1
    if t.renderOk then
      let r := runLoop rest
      (sc :: r.1, r.2)
    else ([sc], true)

/-- Models `main`'s `try ... except Exception ... finally: cleanup()`
around the loop: when the loop ends by an exception, the handler reports
it and `cleanup` runs, exiting the process with status 0. Returns the
attempted scenes and, if the program terminated inside the window,
`some (number of cleanup runs, exit status)`. -/
def mainRun (ticks : List TickInput) : List Scene × Option (Nat × Nat) :=
  let r := runLoop ticks
  if r.2 then (r.1, some (1, 0)) else (r.1, none)

/-- Tick whose render fails (both fetches also failing, giving Offline). -/
def tFail : TickInput := ⟨.failed, .failed, false⟩

/-- Tick whose render succeeds. -/
def tOk : TickInput := ⟨.failed, .failed, true⟩

/-- C4 counterexample: with a bus write failure on the first render and
a second poll available, the loop attempts exactly one render and then
terminates (cleanup runs, exit status 0); it does not continue to the
next poll iteration. -/
theorem render_failure_counterexample :
    mainRun [tFail, tOk] = ([Scene.Offline], some (1, 0)) ∧
    (mainRun [tFail, tOk]).1.length ≠ 2 ∧
    (mainRun [tFail, tOk]).2 ≠ none := by decide

/-- C4 amended: a bus write failure during a render aborts the current
render attempt with no internal retry, and - because the exception
handler sits outside the `while` loop - terminates the loop: however
many successful ticks preceded the failing one and whatever ticks would
follow, exactly the ticks up to and including the failing one are
processed, cleanup runs once, and the process exits with status 0. -/
theorem render_failure_stops_loop (pre : List TickInput) (t : TickInput)
    (post : List TickInput) (hpre : ∀ u ∈ pre, u.renderOk = true)
    (ht : t.renderOk = false) :
    (mainRun (pre ++ t :: post)).1.length = pre.length + 1 ∧
    (mainRun (pre ++ t :: post)).2 = some (1, 0) := by
  suffices h : (runLoop (pre ++ t :: post)).1.length = pre.length + 1 ∧
      (runLoop (pre ++ t :: post)).2 = true by
    simp only [mainRun, h.2, if_true]
    exact ⟨h.1, trivial⟩
  induction pre with
  | nil =>
    simp [runLoop, ht]
  | cons u us ih =>
    have hu : u.renderOk = true := hpre u (List.mem_cons_self u us)
    have ih2 := ih fun v hv => hpre v (List.mem_cons_of_mem u hv)
    rw [List.cons_append]
    unfold runLoop
    rw [if_pos hu]
    simp only [List.length_cons]
    exact ⟨by rw [ih2.1], ih2.2⟩

/-- Witness for C4's amended theorem: one successful tick, then a tick
whose render fails, processes exactly two ticks and terminates with
cleanup and exit status 0. -/
theorem render_failure_stops_loop_witness :
    (∀ u ∈ [tOk], u.renderOk = true) ∧ tFail.renderOk = false ∧
    ((mainRun ([tOk] ++ tFail :: [])).1.length = [tOk].length + 1 ∧
     (mainRun ([tOk] ++ tFail :: [])).2 = some (1, 0)) :=
  ⟨by decide, by decide, render_failure_stops_loop [tOk] tFail [] (by decide) (by decide)⟩

/-- The ways the program stops (src/display-status.py lines 237-276):
the SSD1306 constructor raising (bus open failure), some other exception
before the loop, an uncaught exception inside the loop, or an
interrupt/terminate signal. -/
inductive TermPath where
  | busOpenFail
  | startupExc
  | loopExc
  | signalStop

/-- Python exception classes relevant to `main`: an `Exception` (caught
by `except Exception`) or a `SystemExit` carrying an exit status
(raised by `sys.exit`, not an `Exception`, so it escapes the handler). -/
inductive PyExit where
  | exc
  | sysExit (code : Nat)

/-- What the `try` body of `main` raises on each termination path. On a
signal, the handler calls `cleanup`, whose `sys.exit(0)` raises
`SystemExit 0` inside the loop. -/
def bodyOutcome : TermPath → PyExit
  | .busOpenFail => .exc
  | .startupExc => .exc
  | .loopExc => .exc
  | .signalStop => .sysExit 0

/-- Driver state when the `try` body of `main` stops: on a bus open
failure the constructor raised, so the global `oled` is still None and
no bus handle is held; on every other path the display is up. -/
def initialDriver : TermPath → DriverState
  | .busOpenFail => ⟨false, false, 0⟩
  | .startupExc => ⟨true, true, 0⟩
  | .loopExc => ⟨true, true, 0⟩
  | .signalStop => ⟨true, true, 0⟩

/-- Models the termination of `main`: on a signal the handler already
ran `cleanup` once before its `SystemExit` propagates; `except
Exception` catches only `.exc`; either way control reaches `finally`,
which runs `cleanup`, and the `sys.exit(0)` inside `cleanup` determines
the process exit status. Returns the final driver state, the number of
cleanup runs, and the exit status. -/
def mainTermination (p : TermPath) : DriverState × Nat × Nat :=
  let s0 := initialDriver p
  let handled : DriverState × Nat :=
    match bodyOutcome p with
    | .exc => (s0, 0)
    | .sysExit _ => ((cleanup s0).1, 1)
  let fin := cleanup handled.1
  (fin.1, handled.2 + 1, fin.2)

/-- C10: on every termination path the cleanup routine runs (at least
once), the bus handle is not held afterwards, and the process exits
with status 0 - no path yields a nonzero exit status. -/
theorem termination_runs_cleanup_exits_zero (p : TermPath) :
    1 ≤ (mainTermination p).2.1 ∧
    (mainTermination p).1.busOpen = false ∧
    (mainTermination p).2.2 = 0 := by
  cases p <;> decide

end LunaOled
